import Mathlib

/-!
# Verification of the renewable-planning geometric core

Shallow embedding of the exclusion-zone / layout-validation core of the
repository (files `src/agents/tools/wind_farm_dev_tools.py` and
`src/agents/tools/terrain_tools.py`), together with theorems settling the
specification claims about it.

Modelling conventions:
* Python floats are modelled as exact rationals (`ℚ`).
* Library functions that are transcendental or that live in the geometry
  library (`math.cos ∘ math.radians`, `math.sqrt`, `shapely.buffer`,
  projected distance-to-center, `unary_union`/`simplify`) are taken as
  function parameters of the embedded code, so every theorem holds for an
  arbitrary interpretation of them.  A buffering call that raises an
  exception is modelled as the parameter returning `none`.
* Python dictionaries of OSM tags are association lists with `get`
  defaulting to the empty string (a missing tag and a `NaN` column both
  read back as `''` in the source).
-/

set_option autoImplicit false

namespace RenewablePlanning

/-! ## Data model -/

/-- A turbine feature of `turbine_layout.geojson`: a GeoJSON `Point` with a
`turbine_id` property (`feature['properties'].get('turbine_id')`, possibly
absent). -/
structure TurbineFeature where
  lon : ℚ
  lat : ℚ
  turbine_id : Option Nat
deriving DecidableEq

/-- One exclusion-zone feature of `boundaries.geojson`.  Its merged geometry
is abstract: `contains lon lat` models `Point(lon, lat).intersects(geom)`. -/
structure BoundaryZone where
  feature_type : String
  contains : ℚ → ℚ → Bool

/-- A record of the `boundary_violations` list built by
`validate_layout_quality` (source lines 114–118). -/
structure BoundaryViolation where
  turbine_id : Option Nat
  coordinates : ℚ × ℚ
  issue : String
deriving DecidableEq

/-- A record of the `spacing_violations` list (source lines 138–144). -/
structure SpacingViolation where
  turbine1 : Option Nat
  turbine2 : Option Nat
  actual_distance_m : ℚ
  required_distance_m : ℚ
  shortfall_m : ℚ
deriving DecidableEq

/-- A record of the `turbine_distances` list (source lines 131–135). -/
structure DistanceEntry where
  turbine1 : Option Nat
  turbine2 : Option Nat
  distance_m : ℚ
deriving DecidableEq

/-- The dictionary returned by `validate_layout_quality`.  Keys that are
present only on some paths are `Option`-valued (`message` only on the error
paths, the counters only on the success path). -/
structure LayoutResult where
  status : String
  validation_passed : Bool
  message : Option String
  total_turbines : Option Nat
  total_violations : Option Nat
  boundary_violations : List BoundaryViolation
  spacing_violations : List SpacingViolation
  turbine_distances : List DistanceEntry
  min_spacing_required_m : Option ℚ
  spacing_validation_applied : Option Bool

/-! ## Layout validator (`validate_layout_quality`) -/

/-- Python `round(q, 1)`: round to one decimal place. -/
def round1 (q : ℚ) : ℚ := (round (10 * q) : ℤ) / 10

/-- The fixed issue message of a boundary violation (source line 117). -/
def unbuildableIssue : String :=
  "Located in unbuildable area (water, roads, buildings, or protected zone)"

/-- The pairwise turbine distance of source lines 124–129.  `cosF` models
`math.cos ∘ math.radians` (cosine of a latitude given in degrees) and
`sqrtF` models `math.sqrt`; both are arbitrary. -/
def pairDistance (cosF sqrtF : ℚ → ℚ) (t1 t2 : TurbineFeature) : ℚ :=
  let meters_per_lat : ℚ := 111320
  let meters_per_lon : ℚ := 111320 * cosF ((t1.lat + t2.lat) / 2)
  let dx : ℚ := (t2.lon - t1.lon) * meters_per_lon
  let dy : ℚ := (t2.lat - t1.lat) * meters_per_lat
  sqrtF (dx ^ 2 + dy ^ 2)

/-- The `turbine_distances` entry appended for one pair (source lines
131–135). -/
def distanceEntry (cosF sqrtF : ℚ → ℚ) (p : TurbineFeature × TurbineFeature) :
    DistanceEntry :=
  { turbine1 := p.1.turbine_id
    turbine2 := p.2.turbine_id
    distance_m := round1 (pairDistance cosF sqrtF p.1 p.2) }

/-- The `spacing_violations` entry appended for one pair when the distance is
below the minimum (source lines 137–144); `none` when no violation. -/
def spacingCheck (cosF sqrtF : ℚ → ℚ) (min_spacing_m : ℚ)
    (p : TurbineFeature × TurbineFeature) : Option SpacingViolation :=
  let d := pairDistance cosF sqrtF p.1 p.2
  if d < min_spacing_m then
    some { turbine1 := p.1.turbine_id
           turbine2 := p.2.turbine_id
           actual_distance_m := round1 d
           required_distance_m := min_spacing_m
           shortfall_m := round1 (min_spacing_m - d) }
  else none

/-- All ordered index pairs `(l[i], l[j])` with `i < j`, in the order of the
nested loop `for i ...: for j in range(i+1, n)` of source lines 122–123. -/
def ordPairs {α : Type} : List α → List (α × α)
  | [] => []
  | x :: xs => (xs.map fun y => (x, y)) ++ ordPairs xs

/-- `validate_layout_quality` (source lines 44–170).  File loading is
externalized: `layout = none` models a `FileNotFoundError` for
`turbine_layout.geojson`, `boundaries = none` one for `boundaries.geojson`.
The body follows the source line by line. -/
def validate_layout_quality (cosF sqrtF : ℚ → ℚ) (project_id : String)
    (layout : Option (List TurbineFeature))
    (boundaries : Option (List BoundaryZone))
    (min_spacing_m : ℚ) : LayoutResult :=
  match layout with
  | none =>
      { status := "error"
        validation_passed := false
        message := some ("No turbine layout found for project " ++ project_id
          ++ ". Create a layout first.")
        total_turbines := none
        total_violations := none
        boundary_violations := []
        spacing_violations := []
        turbine_distances := []
        min_spacing_required_m := none
        spacing_validation_applied := none }
  | some features =>
      if features.isEmpty then
        { status := "error"
          validation_passed := false
          message := some "No turbines found in layout"
          total_turbines := none
          total_violations := none
          boundary_violations := []
          spacing_violations := []
          turbine_distances := []
          min_spacing_required_m := none
          spacing_validation_applied := none }
      else
        -- `if boundaries and boundaries.get('features')` (source line 95):
        -- a missing file and an empty feature list both leave the
        -- GeoDataFrame unset, skipping the boundary check.
        let zones : List BoundaryZone :=
          match boundaries with
          | some zs => if zs.isEmpty then [] else zs
          | none => []
        let boundary_violations : List BoundaryViolation :=
          (features.filter fun t => zones.any fun z => z.contains t.lon t.lat).map
            fun t => { turbine_id := t.turbine_id
                       coordinates := (t.lat, t.lon)
                       issue := unbuildableIssue }
        let turbine_distances : List DistanceEntry :=
          (ordPairs features).map (distanceEntry cosF sqrtF)
        let spacing_violations : List SpacingViolation :=
          (ordPairs features).filterMap (spacingCheck cosF sqrtF min_spacing_m)
        { status := "success"
          validation_passed :=
            boundary_violations.length + spacing_violations.length == 0
          message := none
          total_turbines := some features.length
          total_violations :=
            some (boundary_violations.length + spacing_violations.length)
          boundary_violations := boundary_violations
          spacing_violations := spacing_violations
          turbine_distances := turbine_distances
          min_spacing_required_m := some min_spacing_m
          spacing_validation_applied := some true }

/-! ## Terrain analysis (`terrain_tools.py`) -/

/-- A GeoJSON geometry as produced and consumed by the terrain pipeline.
`point` is included because OSM node elements carry point locations; the
claims about `osm_to_geojson` are precisely about it never being emitted. -/
inductive GeoGeometry : Type
  | point (c : ℚ × ℚ)
  | lineString (coords : List (ℚ × ℚ))
  | polygon (rings : List (List (ℚ × ℚ)))
deriving DecidableEq

/-- Whether a geometry is a GeoJSON `Point`. -/
def GeoGeometry.isPoint : GeoGeometry → Bool
  | .point _ => true
  | _ => false

/-- A GeoJSON feature: free-form tag dictionary plus geometry. -/
structure GeoFeature where
  properties : List (String × String)
  geometry : GeoGeometry
deriving DecidableEq

/-- `props.get(key, '')`: the tag dictionaries are string-to-string mappings
with unique keys; a missing key (or a `NaN` GeoDataFrame cell, source line
220) reads as the empty string. -/
def propsGet (props : List (String × String)) (key : String) : String :=
  match props.find? fun kv => kv.1 == key with
  | some kv => kv.2
  | none => ""

/-- `is_residence_receptor` (source lines 262–270). -/
def is_residence_receptor (props : List (String × String)) : Bool :=
  let building_type := propsGet props "building"
  let amenity := propsGet props "amenity"
  let landuse := propsGet props "landuse"
  ["residential", "house", "apartments", "detached", "terrace"].contains building_type
    || ["school", "hospital", "clinic", "nursing_home", "kindergarten"].contains amenity
    || landuse == "residential"

/-- `is_road_railroad_transmission` (source lines 273–284).  The Python
expression `highway or railway or ...` is truthy when either string is
non-empty. -/
def is_road_railroad_transmission (props : List (String × String)) : Bool :=
  let highway := propsGet props "highway"
  let railway := propsGet props "railway"
  let power := propsGet props "power"
  let man_made := propsGet props "man_made"
  let building := propsGet props "building"
  !(highway == "") || !(railway == "")
    || ["line", "tower", "pole", "substation"].contains power
    || ["tower", "mast", "antenna"].contains man_made
    || ["commercial", "industrial", "retail", "warehouse", "church", "mosque",
        "temple"].contains building

/-- `is_pipeline_distribution` (source lines 287–293). -/
def is_pipeline_distribution (props : List (String × String)) : Bool :=
  let man_made := propsGet props "man_made"
  let power := propsGet props "power"
  ["pipeline", "petroleum_well", "gas_well"].contains man_made
    || ["minor_line", "cable"].contains power

/-- `is_water_wetland` (source lines 296–304). -/
def is_water_wetland (props : List (String × String)) : Bool :=
  let natural := propsGet props "natural"
  let waterway := propsGet props "waterway"
  let water := propsGet props "water"
  ["water", "wetland", "coastline"].contains natural
    || ["river", "stream", "canal"].contains waterway
    || ["lake", "pond", "reservoir"].contains water

/-- The `feature_type` assigned by the `if`/`elif` chain of `apply_setback`
(source lines 223–237): first predicate match wins. -/
def feature_type_of (props : List (String × String)) : String :=
  if is_residence_receptor props then "residence"
  else if is_road_railroad_transmission props then "infrastructure"
  else if is_pipeline_distribution props then "pipeline"
  else if is_water_wetland props then "water"
  else "other"

/-- Python `x or fb` on an optional number: `None` and `0` fall back. -/
def pyOrQ (v : Option ℚ) (fb : ℚ) : ℚ :=
  match v with
  | some x => if x = 0 then fb else x
  | none => fb

/-- The buffer distance assigned by the same `if`/`elif` chain (source lines
223–237); the final branch is `default_setback_m or 100`. -/
def setback_distance_of (residence_setback_m road_setback_m lines_setback_m
    water_setback_m : ℚ) (default_setback_m : Option ℚ)
    (props : List (String × String)) : ℚ :=
  if is_residence_receptor props then residence_setback_m
  else if is_road_railroad_transmission props then road_setback_m
  else if is_pipeline_distribution props then lines_setback_m
  else if is_water_wetland props then water_setback_m
  else pyOrQ default_setback_m 100

/-- One row of the buffered GeoDataFrame produced by `apply_setback`
(geometry replaced by its buffer, source line 241; setback info columns
added, source lines 244–256). -/
structure BufferedFeature where
  properties : List (String × String)
  geometry : GeoGeometry
  setback_applied : Bool
  default_setback_m : ℚ
  setback_type : String
deriving DecidableEq

/-- Buffering of one feature inside the `apply_setback` loop.  `bufferF`
models `shapely`'s `geometry.buffer` in the projected CRS; it returns `none`
when the library call raises.  There is no `try`/`except` in the loop, so a
`none` propagates. -/
def bufferFeature (bufferF : GeoGeometry → ℚ → Option GeoGeometry)
    (residence_setback_m road_setback_m lines_setback_m water_setback_m : ℚ)
    (default_setback_m : Option ℚ) (f : GeoFeature) : Option BufferedFeature :=
  let dist := setback_distance_of residence_setback_m road_setback_m
    lines_setback_m water_setback_m default_setback_m f.properties
  match bufferF f.geometry dist with
  | some g =>
      some { properties := f.properties
             geometry := g
             setback_applied := true
             default_setback_m := dist
             setback_type := feature_type_of f.properties }
  | none => none

/-- `apply_setback` (source lines 197–259): sequential loop over the rows;
an uncaught buffering exception aborts the whole call, which is modelled by
`none`. -/
def apply_setback (bufferF : GeoGeometry → ℚ → Option GeoGeometry)
    (residence_setback_m road_setback_m lines_setback_m water_setback_m : ℚ)
    (default_setback_m : Option ℚ) :
    List GeoFeature → Option (List BufferedFeature)
  | [] => some []
  | f :: fs =>
      match bufferFeature bufferF residence_setback_m road_setback_m
        lines_setback_m water_setback_m default_setback_m f with
      | none => none
      | some b =>
          match apply_setback bufferF residence_setback_m road_setback_m
            lines_setback_m water_setback_m default_setback_m fs with
          | none => none
          | some bs => some (b :: bs)

/-! ### OSM normalisation and radius filter -/

/-- A raw element of an Overpass API response: its `type` tag, the optional
`geometry` list of `{lat, lon}` points (stored here as `(lon, lat)` pairs,
the order in which the source reads them), and the OSM tags. -/
structure OsmElement where
  etype : String
  geometry : Option (List (ℚ × ℚ))
  tags : List (String × String)
deriving DecidableEq

/-- The feature (if any) that `osm_to_geojson` emits for one element
(source lines 178–192): only `way` elements carrying a geometry with more
than one coordinate produce a feature, a `Polygon` when closed with more
than three vertices and a `LineString` otherwise. -/
def osmElementFeature (el : OsmElement) : Option GeoFeature :=
  if el.etype == "way" then
    match el.geometry with
    | some pts =>
        let coords := pts
        if coords.length > 1 then
          if coords.head? == coords.getLast? && decide (coords.length > 3) then
            some { properties := el.tags, geometry := .polygon [coords] }
          else
            some { properties := el.tags, geometry := .lineString coords }
        else none
    | none => none
  else none

/-- `osm_to_geojson` (source lines 173–194). -/
def osm_to_geojson (els : List OsmElement) : List GeoFeature :=
  els.filterMap osmElementFeature

/-- `filter_by_radius` (source lines 147–170).  `distF` models the projected
(UTM) distance from a feature's geometry to the analysis center,
`gdf_utm.distance(center_utm)`; the filter keeps distances `≤ radius_km *
1000`. -/
def filter_by_radius (distF : GeoGeometry → ℚ) (radius_km : ℚ)
    (features : List GeoFeature) : List GeoFeature :=
  features.filter fun f => distF f.geometry ≤ radius_km * 1000

/-! ### Analysis entry point (`get_unbuildable_areas`) -/

/-- The configuration parameters of `get_unbuildable_areas`; `none` models a
Python `None` argument. -/
structure AnalysisConfig where
  radius_km : ℚ
  default_setback_m : Option ℚ
  tip_height_m : Option ℚ
  rotor_radius_m : Option ℚ
  residence_setback_m : Option ℚ
  road_setback_m : Option ℚ
  water_setback_m : Option ℚ
  lines_setback_m : Option ℚ

/-- Source lines 618–620: residence default `3 × tip height`, falling back
to `default_setback_m or 300`. -/
def resolve_residence_setback (c : AnalysisConfig) : ℚ :=
  match c.residence_setback_m with
  | some x => x
  | none =>
      match c.tip_height_m with
      | some t => if t = 0 then pyOrQ c.default_setback_m 300 else 3 * t
      | none => pyOrQ c.default_setback_m 300

/-- Source lines 621–623: road default `1.1 × tip height`, falling back to
`default_setback_m or 110`. -/
def resolve_road_setback (c : AnalysisConfig) : ℚ :=
  match c.road_setback_m with
  | some x => x
  | none =>
      match c.tip_height_m with
      | some t => if t = 0 then pyOrQ c.default_setback_m 110 else 11 / 10 * t
      | none => pyOrQ c.default_setback_m 110

/-- Source lines 624–626: lines default `1.1 × rotor radius`, falling back
to `default_setback_m or 110`. -/
def resolve_lines_setback (c : AnalysisConfig) : ℚ :=
  match c.lines_setback_m with
  | some x => x
  | none =>
      match c.rotor_radius_m with
      | some r => if r = 0 then pyOrQ c.default_setback_m 110 else 11 / 10 * r
      | none => pyOrQ c.default_setback_m 110

/-- Source lines 627–629: water default 30.48 m. -/
def resolve_water_setback (c : AnalysisConfig) : ℚ :=
  match c.water_setback_m with
  | some x => x
  | none => 30.48

/-- `query_overpass` after the HTTP call (source lines 120–144), with the
already-parsed element list supplied by the caller: normalise, filter by
radius, buffer with per-class setbacks, then merge/simplify.
`simplifyF` models `simplify_geojson_union`, which catches its own
exceptions and therefore always returns (source lines 307–359). -/
def query_overpass_pipeline (bufferF : GeoGeometry → ℚ → Option GeoGeometry)
    (distF : GeoGeometry → ℚ)
    (simplifyF : List BufferedFeature → List GeoFeature)
    (elements : List OsmElement) (radius_km : ℚ)
    (residence_setback_m road_setback_m lines_setback_m water_setback_m : ℚ)
    (default_setback_m : Option ℚ) : Option (List GeoFeature) :=
  let geojson := osm_to_geojson elements
  let filtered := filter_by_radius distF radius_km geojson
  match apply_setback bufferF residence_setback_m road_setback_m
    lines_setback_m water_setback_m default_setback_m filtered with
  | none => none
  | some buffered => some (simplifyF buffered)

/-- The result dictionary of `get_unbuildable_areas`. -/
structure AnalysisResult where
  success : Bool
  features : List GeoFeature
  error : Option String
deriving DecidableEq

/-- `get_unbuildable_areas` (source lines 562–661): resolve the setback
configuration (with no validation of any kind), run the pipeline, save.
An exception anywhere inside — modelled as `none` from the pipeline or a
failed save (`saveOk = false`) — is caught by the entry point's
`try`/`except`, which returns an error result. -/
def get_unbuildable_areas (bufferF : GeoGeometry → ℚ → Option GeoGeometry)
    (distF : GeoGeometry → ℚ)
    (simplifyF : List BufferedFeature → List GeoFeature)
    (saveOk : Bool) (cfg : AnalysisConfig) (elements : List OsmElement) :
    AnalysisResult :=
  let residence := resolve_residence_setback cfg
  let road := resolve_road_setback cfg
  let lines := resolve_lines_setback cfg
  let water := resolve_water_setback cfg
  match query_overpass_pipeline bufferF distF simplifyF elements cfg.radius_km
    residence road lines water cfg.default_setback_m with
  | none => { success := false, features := [], error := some "Analysis failed" }
  | some feats =>
      if saveOk then { success := true, features := feats, error := none }
      else { success := false, features := [], error := some "Failed to save results" }

/-- A buffering interpretation that fails exactly on point geometries
(modelling a geometry the buffer call raises on). -/
def bufferFailsOnPoints : GeoGeometry → ℚ → Option GeoGeometry
  | .point _, _ => none
  | g, _ => some g

/-- A buffering interpretation that always succeeds and records the distance
it was asked to buffer by inside the output geometry. -/
def encodeDistBuffer : GeoGeometry → ℚ → Option GeoGeometry :=
  fun _ d => some (.point (d, 0))

/-- A trivial interpretation of `simplify_geojson_union` that keeps each
buffered feature's properties and geometry. -/
def forgetSetback : List BufferedFeature → List GeoFeature :=
  fun bs => bs.map fun b => ⟨b.properties, b.geometry⟩

/-- An invalid configuration: zero analysis radius and a negative residence
setback. -/
def invalidCfg : AnalysisConfig :=
  { radius_km := 0, default_setback_m := some 100, tip_height_m := none,
    rotor_radius_m := none, residence_setback_m := some (-5),
    road_setback_m := some 110, water_setback_m := some 30.48,
    lines_setback_m := some 110 }

/-! ## Helper lemmas about `ordPairs` -/

theorem ordPairs_cons {α : Type} (x : α) (xs : List α) :
    ordPairs (x :: xs) = (xs.map fun y => (x, y)) ++ ordPairs xs := rfl

theorem ordPairs_length_aux {α : Type} (l : List α) :
    2 * (ordPairs l).length + l.length = l.length * l.length := by
  induction l with
  | nil => rfl
  | cons x xs ih =>
      have h : (ordPairs (x :: xs)).length = xs.length + (ordPairs xs).length := by
        simp [ordPairs]
      rw [h, List.length_cons, Nat.add_mul, Nat.one_mul, Nat.mul_add, Nat.mul_add,
        Nat.mul_one, ← ih]
      omega

theorem ordPairs_length {α : Type} (l : List α) :
    2 * (ordPairs l).length = l.length * (l.length - 1) := by
  have h := ordPairs_length_aux l
  have h2 : l.length * (l.length - 1) = l.length * l.length - l.length := by
    rw [← Nat.pred_eq_sub_one, Nat.mul_pred]
  rw [h2, ← h]
  omega

theorem ordPairs_length_div {α : Type} (l : List α) :
    (ordPairs l).length = l.length * (l.length - 1) / 2 := by
  rw [← ordPairs_length l, Nat.mul_div_cancel_left _ (by norm_num)]

theorem mem_of_mem_ordPairs {α : Type} {l : List α} {p : α × α}
    (h : p ∈ ordPairs l) : p.1 ∈ l ∧ p.2 ∈ l := by
  induction l with
  | nil => cases h
  | cons x xs ih =>
      simp only [ordPairs, List.mem_append, List.mem_map] at h
      rcases h with ⟨y, hy, rfl⟩ | h
      · exact ⟨List.mem_cons_self x xs, List.mem_cons_of_mem x hy⟩
      · rcases ih h with ⟨h1, h2⟩
        exact ⟨List.mem_cons_of_mem x h1, List.mem_cons_of_mem x h2⟩

theorem ordPairs_rel {α : Type} {r : α → α → Prop} {l : List α}
    (h : l.Pairwise r) : ∀ p ∈ ordPairs l, r p.1 p.2 := by
  induction l with
  | nil => intro p hp; cases hp
  | cons x xs ih =>
      rw [List.pairwise_cons] at h
      intro p hp
      simp only [ordPairs, List.mem_append, List.mem_map] at hp
      rcases hp with ⟨y, hy, rfl⟩ | hp
      · exact h.1 y hy
      · exact ih h.2 p hp

theorem ordPairs_nodup {α : Type} {l : List α} (h : l.Nodup) :
    (ordPairs l).Nodup := by
  induction l with
  | nil => exact List.nodup_nil
  | cons x xs ih =>
      rw [List.nodup_cons] at h
      refine List.Nodup.append (h.2.map ?_) (ih h.2) ?_
      · intro a b hab
        exact congrArg Prod.snd hab
      · intro p hp1 hp2
        rcases List.mem_map.mp hp1 with ⟨y, _, rfl⟩
        exact h.1 (mem_of_mem_ordPairs hp2).1

theorem ordPairs_append_singleton {α : Type} (l : List α) (a : α) (p : α × α) :
    p ∈ ordPairs (l ++ [a]) ↔ p ∈ ordPairs l ∨ (p.1 ∈ l ∧ p.2 = a) := by
  induction l with
  | nil => simp [ordPairs]
  | cons x xs ih =>
      rw [List.cons_append, ordPairs_cons, ordPairs_cons]
      constructor
      · intro h
        rcases List.mem_append.mp h with hmap | hrest
        · rcases List.mem_map.mp hmap with ⟨y, hy, hxy⟩
          rcases List.mem_append.mp hy with hy1 | hy2
          · exact Or.inl (List.mem_append.mpr (Or.inl (List.mem_map.mpr ⟨y, hy1, hxy⟩)))
          · have hya : y = a := List.mem_singleton.mp hy2
            subst hya
            refine Or.inr ⟨?_, ?_⟩
            · rw [← hxy]; exact List.mem_cons_self x xs
            · rw [← hxy]
        · rcases ih.mp hrest with h1 | ⟨h1, h2⟩
          · exact Or.inl (List.mem_append.mpr (Or.inr h1))
          · exact Or.inr ⟨List.mem_cons_of_mem x h1, h2⟩
      · intro h
        rcases h with h | ⟨h1, h2⟩
        · rcases List.mem_append.mp h with hmap | hrest
          · rcases List.mem_map.mp hmap with ⟨y, hy, hxy⟩
            exact List.mem_append.mpr
              (Or.inl (List.mem_map.mpr ⟨y, List.mem_append.mpr (Or.inl hy), hxy⟩))
          · exact List.mem_append.mpr (Or.inr (ih.mpr (Or.inl hrest)))
        · rcases List.mem_cons.mp h1 with hx | hxs
          · refine List.mem_append.mpr (Or.inl (List.mem_map.mpr ⟨a, ?_, ?_⟩))
            · exact List.mem_append.mpr (Or.inr (List.mem_singleton.mpr rfl))
            · exact Prod.ext_iff.mpr ⟨hx.symm, h2.symm⟩
          · exact List.mem_append.mpr (Or.inr (ih.mpr (Or.inr ⟨hxs, h2⟩)))

theorem nodup_count_eq_one {α : Type} [BEq α] [LawfulBEq α] {l : List α} {a : α}
    (d : l.Nodup) (h : a ∈ l) : l.count a = 1 := by
  induction l with
  | nil => cases h
  | cons x xs ih =>
      rw [List.nodup_cons] at d
      rcases List.mem_cons.mp h with rfl | hmem
      · rw [List.count_cons_self, List.count_eq_zero.mpr d.1]
      · have hax : a ≠ x := fun hax => d.1 (hax ▸ hmem)
        rw [List.count_cons_of_ne hax]
        exact ih d.2 hmem

theorem mem_ordPairs_range {n i j : ℕ} :
    (i, j) ∈ ordPairs (List.range n) ↔ i < j ∧ j < n := by
  constructor
  · intro h
    refine ⟨ordPairs_rel (List.pairwise_lt_range n) _ h, ?_⟩
    exact List.mem_range.mp (mem_of_mem_ordPairs h).2
  · rintro ⟨hij, hjn⟩
    induction n with
    | zero => omega
    | succ n ih =>
        rw [List.range_succ, ordPairs_append_singleton]
        by_cases h : j < n
        · exact Or.inl (ih h)
        · have hj : j = n := by omega
          subst hj
          exact Or.inr ⟨List.mem_range.mpr hij, rfl⟩

/-! ## Claims -/

/-- C1: for every turbine layout that `validate_layout_quality` actually
validates (the layout is present and its feature list non-empty), the
returned `validation_passed` flag is true if and only if both the
`boundary_violations` list and the `spacing_violations` list are empty. -/
theorem C1_validation_passed_iff (cosF sqrtF : ℚ → ℚ) (pid : String)
    (ts : List TurbineFeature) (bs : Option (List BoundaryZone)) (m : ℚ)
    (hne : ts ≠ []) :
    (validate_layout_quality cosF sqrtF pid (some ts) bs m).validation_passed = true ↔
      ((validate_layout_quality cosF sqrtF pid (some ts) bs m).boundary_violations = []
        ∧ (validate_layout_quality cosF sqrtF pid (some ts) bs m).spacing_violations = []) := by
  cases ts with
  | nil => exact absurd rfl hne
  | cons t ts' =>
      simp only [validate_layout_quality, List.isEmpty_cons, Bool.false_eq_true,
        if_false, beq_iff_eq, Nat.add_eq_zero, List.length_eq_zero]

/-- Witness for C1 at a concrete two-turbine layout. -/
theorem C1_validation_passed_iff_witness :
    ([(⟨0, 0, some 1⟩ : TurbineFeature), ⟨1, 0, some 2⟩] ≠ []) ∧
      ((validate_layout_quality id id "p"
          (some [⟨0, 0, some 1⟩, ⟨1, 0, some 2⟩]) none 300).validation_passed = true ↔
        ((validate_layout_quality id id "p"
            (some [⟨0, 0, some 1⟩, ⟨1, 0, some 2⟩]) none 300).boundary_violations = []
          ∧ (validate_layout_quality id id "p"
              (some [⟨0, 0, some 1⟩, ⟨1, 0, some 2⟩]) none 300).spacing_violations = [])) :=
  ⟨by decide,
    C1_validation_passed_iff id id "p" [⟨0, 0, some 1⟩, ⟨1, 0, some 2⟩] none 300
      (by decide)⟩

/-- C2: for a layout of `n` turbines the `turbine_distances` list has exactly
one entry per ordered index pair `i < j` — hence `n·(n-1)/2` entries, exactly
one per unordered pair of distinct turbines, with no duplicate unordered
pairs and no self-pairs. -/
theorem C2_turbine_distances_pairs (cosF sqrtF : ℚ → ℚ) (pid : String)
    (ts : List TurbineFeature) (bs : Option (List BoundaryZone)) (m : ℚ) :
    ((validate_layout_quality cosF sqrtF pid (some ts) bs m).turbine_distances
        = (ordPairs ts).map (distanceEntry cosF sqrtF))
    ∧ ((validate_layout_quality cosF sqrtF pid (some ts) bs m).turbine_distances.length
        = ts.length * (ts.length - 1) / 2)
    ∧ (∀ p ∈ ordPairs (List.range ts.length), p.1 < p.2)
    ∧ (∀ i j : ℕ, i < j → j < ts.length →
        (ordPairs (List.range ts.length)).count (i, j) = 1)
    ∧ (∀ i j : ℕ, ¬ i < j → (ordPairs (List.range ts.length)).count (i, j) = 0) := by
  refine ⟨?_, ?_, ?_, ?_, ?_⟩
  · cases ts with
    | nil => simp [validate_layout_quality, ordPairs]
    | cons t ts' => simp [validate_layout_quality]
  · cases ts with
    | nil => simp [validate_layout_quality, ordPairs]
    | cons t ts' =>
        simp only [validate_layout_quality, List.isEmpty_cons, Bool.false_eq_true,
          if_false, List.length_map]
        exact ordPairs_length_div (t :: ts')
  · intro p hp
    exact ordPairs_rel (List.pairwise_lt_range ts.length) p hp
  · intro i j hij hjn
    exact nodup_count_eq_one (ordPairs_nodup (List.nodup_range ts.length))
      (mem_ordPairs_range.mpr ⟨hij, hjn⟩)
  · intro i j hij
    exact List.count_eq_zero.mpr fun h => hij (mem_ordPairs_range.mp h).1

/-- Witness for C2 at a concrete three-turbine layout. -/
theorem C2_turbine_distances_pairs_witness :
    ((validate_layout_quality id id "p"
        (some [⟨0, 0, some 1⟩, ⟨1, 0, some 2⟩, ⟨2, 0, some 3⟩]) none
        300).turbine_distances.length = 3)
    ∧ (ordPairs (List.range 3)).count ((0 : ℕ), 1) = 1
    ∧ (ordPairs (List.range 3)).count ((1 : ℕ), 0) = 0
    ∧ (ordPairs (List.range 3)).count ((2 : ℕ), 2) = 0 := by
  have h := C2_turbine_distances_pairs id id "p"
    [⟨0, 0, some 1⟩, ⟨1, 0, some 2⟩, ⟨2, 0, some 3⟩] none 300
  exact ⟨h.2.1, h.2.2.2.1 0 1 (by decide) (by decide), h.2.2.2.2 1 0 (by decide),
    h.2.2.2.2 2 2 (by decide)⟩

/-- C3 counterexample: the reported shortfall is `round(min_spacing_m -
distance, 1)`, not `min_spacing_m - distance` itself.  With `sqrtF = id`,
`cosF = 1` the pair distance is 289 m; at `min_spacing_m = 300.001` the true
shortfall 11.001 is reported as 11. -/
theorem C3_shortfall_rounded_counterexample :
    ((validate_layout_quality (fun _ => 1) id "p"
        (some [⟨0, 0, some 1⟩, ⟨17 / 111320, 0, some 2⟩]) none
        (300001 / 1000)).spacing_violations
      = [{ turbine1 := some 1, turbine2 := some 2, actual_distance_m := 289,
           required_distance_m := 300001 / 1000, shortfall_m := 11 }])
    ∧ (300001 / 1000 : ℚ) - 289 ≠ 11 := by
  constructor
  · have hd : pairDistance (fun _ => 1) id ⟨0, 0, some 1⟩ ⟨17 / 111320, 0, some 2⟩
        = 289 := by
      simp only [pairDistance, id]
      norm_num
    simp only [validate_layout_quality, List.isEmpty_cons, Bool.false_eq_true,
      if_false, ordPairs, List.map_cons, List.map_nil, List.append_nil,
      List.nil_append, List.filterMap_cons, List.filterMap_nil, spacingCheck, hd]
    norm_num [round1, round_eq]
  · norm_num

/-- C3 (amended): the pairwise distance computed by
`validate_layout_quality` is the equirectangular approximation anchored at
the pair's mean latitude, it is symmetric in its two arguments, and a pair
is reported in `spacing_violations` exactly when its distance is strictly
below `min_spacing_m`, with shortfall `min_spacing_m - distance` rounded to
one decimal place (like all reported distances). -/
theorem C3_spacing_distance (cosF sqrtF : ℚ → ℚ) (pid : String)
    (ts : List TurbineFeature) (bs : Option (List BoundaryZone)) (m : ℚ)
    (t1 t2 : TurbineFeature) :
    (pairDistance cosF sqrtF t1 t2
        = sqrtF (((t2.lon - t1.lon) * 111320 * cosF ((t1.lat + t2.lat) / 2)) ^ 2
            + ((t2.lat - t1.lat) * 111320) ^ 2))
    ∧ pairDistance cosF sqrtF t1 t2 = pairDistance cosF sqrtF t2 t1
    ∧ ((validate_layout_quality cosF sqrtF pid (some ts) bs m).spacing_violations
        = (ordPairs ts).filterMap (spacingCheck cosF sqrtF m))
    ∧ (spacingCheck cosF sqrtF m (t1, t2)
        = if pairDistance cosF sqrtF t1 t2 < m then
            some { turbine1 := t1.turbine_id, turbine2 := t2.turbine_id,
                   actual_distance_m := round1 (pairDistance cosF sqrtF t1 t2),
                   required_distance_m := m,
                   shortfall_m := round1 (m - pairDistance cosF sqrtF t1 t2) }
          else none) := by
  refine ⟨?_, ?_, ?_, rfl⟩
  · simp only [pairDistance]
    congr 1
    ring
  · simp only [pairDistance]
    rw [add_comm t2.lat t1.lat]
    congr 1
    ring
  · cases ts with
    | nil => simp [validate_layout_quality, ordPairs]
    | cons t ts' => simp [validate_layout_quality]

/-- C4: the setback classifier is a total function assigning exactly one
class by first-match priority residence, then infrastructure, then
pipeline, then water, then other; in particular a feature satisfying both
the residence and the infrastructure predicates classifies as residence. -/
theorem C4_classifier_priority (props : List (String × String)) :
    (feature_type_of props = "residence" ↔ is_residence_receptor props = true)
    ∧ (feature_type_of props = "infrastructure"
        ↔ (is_residence_receptor props = false
            ∧ is_road_railroad_transmission props = true))
    ∧ (feature_type_of props = "pipeline"
        ↔ (is_residence_receptor props = false
            ∧ is_road_railroad_transmission props = false
            ∧ is_pipeline_distribution props = true))
    ∧ (feature_type_of props = "water"
        ↔ (is_residence_receptor props = false
            ∧ is_road_railroad_transmission props = false
            ∧ is_pipeline_distribution props = false
            ∧ is_water_wetland props = true))
    ∧ (feature_type_of props = "other"
        ↔ (is_residence_receptor props = false
            ∧ is_road_railroad_transmission props = false
            ∧ is_pipeline_distribution props = false
            ∧ is_water_wetland props = false))
    ∧ (is_residence_receptor props = true →
        is_road_railroad_transmission props = true →
        feature_type_of props = "residence") := by
  cases h1 : is_residence_receptor props <;>
    cases h2 : is_road_railroad_transmission props <;>
      cases h3 : is_pipeline_distribution props <;>
        cases h4 : is_water_wetland props <;>
          simp [feature_type_of, h1, h2, h3, h4]

/-- Witness for C4: a feature matching both the residence predicate (via
`amenity=school`) and the infrastructure predicate (via `highway`). -/
theorem C4_classifier_priority_witness :
    feature_type_of [("amenity", "school"), ("highway", "primary")]
      = "residence" :=
  (C4_classifier_priority [("amenity", "school"), ("highway", "primary")]).2.2.2.2.2
    (by rfl) (by rfl)

/-- C5 counterexample: a feature tagged `building=school` matches neither the
residence predicate (which looks for school/hospital/clinic/nursing
home/kindergarten only under the `amenity` key) nor any later predicate, so
it classifies as `other` with the default setback, not as residence. -/
theorem C5_school_building_counterexample :
    is_residence_receptor [("building", "school")] = false
    ∧ feature_type_of [("building", "school")] = "other"
    ∧ ("other" : String) ≠ "residence" := by
  refine ⟨rfl, rfl, ?_⟩
  decide

/-- C5 (amended): a feature whose `amenity` tag is school, hospital, clinic,
nursing_home or kindergarten classifies as residence and receives the
residence setback regardless of lower-priority matches; but a feature tagged
`building=school` (without such an `amenity` tag) classifies as `other`,
not residence. -/
theorem C5_amenity_receptor_classification :
    (∀ props : List (String × String),
        propsGet props "amenity"
            ∈ ["school", "hospital", "clinic", "nursing_home", "kindergarten"] →
          feature_type_of props = "residence"
            ∧ ∀ r road l w : ℚ, ∀ d : Option ℚ,
                setback_distance_of r road l w d props = r)
    ∧ feature_type_of [("building", "school")] = "other" := by
  refine ⟨?_, rfl⟩
  intro props hmem
  have hres : is_residence_receptor props = true := by
    simp only [List.mem_cons, List.not_mem_nil, or_false] at hmem
    simp only [is_residence_receptor, Bool.or_eq_true, beq_iff_eq,
      List.contains_eq_any_beq, List.any_cons, List.any_nil]
    tauto
  exact ⟨by simp [feature_type_of, hres],
    fun r road l w d => by simp [setback_distance_of, hres]⟩

/-- Witness for C5 at an `amenity=school` feature that also carries
`building=school`. -/
theorem C5_amenity_receptor_classification_witness :
    feature_type_of [("building", "school"), ("amenity", "school")]
      = "residence" :=
  ((C5_amenity_receptor_classification.1
      [("building", "school"), ("amenity", "school")] (by decide)).1)

/-- C6 counterexample: `apply_setback` has no per-feature exception
handling, so one feature whose buffering fails makes the whole batch fail,
even though the other feature of the batch buffers fine. -/
theorem C6_single_failure_aborts_counterexample :
    (apply_setback bufferFailsOnPoints 300 110 110 30.48 (some 100)
        [⟨[("building", "house")], .lineString [(0, 0), (1, 1)]⟩,
         ⟨[], .point (0, 0)⟩] = none)
    ∧ ((bufferFeature bufferFailsOnPoints 300 110 110 30.48 (some 100)
        ⟨[("building", "house")], .lineString [(0, 0), (1, 1)]⟩).isSome = true) :=
  ⟨rfl, rfl⟩

/-- C6 (amended): a feature whose buffering fails is not skipped — the
failure propagates out of `apply_setback`, aborting the whole batch; it is
only the entry point's catch-all handler that turns it into an error
result. -/
theorem C6_buffer_failure_aborts (bufferF : GeoGeometry → ℚ → Option GeoGeometry)
    (r road l w : ℚ) (d : Option ℚ) (fs : List GeoFeature) (f : GeoFeature)
    (hf : f ∈ fs)
    (hfail : bufferFeature bufferF r road l w d f = none) :
    apply_setback bufferF r road l w d fs = none := by
  induction fs with
  | nil => cases hf
  | cons g gs ih =>
      rcases List.mem_cons.mp hf with rfl | hmem
      · simp [apply_setback, hfail]
      · rcases hb : bufferFeature bufferF r road l w d g with _ | b
        · simp [apply_setback, hb]
        · simp [apply_setback, hb, ih hmem]

/-- Witness for C6 at a concrete one-feature batch. -/
theorem C6_buffer_failure_aborts_witness :
    apply_setback bufferFailsOnPoints 300 110 110 30.48 (some 100)
      [⟨[], .point (0, 0)⟩] = none :=
  C6_buffer_failure_aborts bufferFailsOnPoints 300 110 110 30.48 (some 100)
    [⟨[], .point (0, 0)⟩] ⟨[], .point (0, 0)⟩ (List.mem_singleton.mpr rfl) rfl

theorem bufferFeature_isSome (bufferF : GeoGeometry → ℚ → Option GeoGeometry)
    (hbuf : ∀ g q, (bufferF g q).isSome = true) (r road l w : ℚ)
    (d : Option ℚ) (f : GeoFeature) :
    (bufferFeature bufferF r road l w d f).isSome = true := by
  have h := hbuf f.geometry (setback_distance_of r road l w d f.properties)
  rcases hg : bufferF f.geometry (setback_distance_of r road l w d f.properties)
    with _ | g
  · rw [hg] at h; simp at h
  · simp [bufferFeature, hg]

theorem apply_setback_isSome (bufferF : GeoGeometry → ℚ → Option GeoGeometry)
    (hbuf : ∀ g q, (bufferF g q).isSome = true) (r road l w : ℚ)
    (d : Option ℚ) (fs : List GeoFeature) :
    (apply_setback bufferF r road l w d fs).isSome = true := by
  induction fs with
  | nil => rfl
  | cons f fs ih =>
      have hb := bufferFeature_isSome bufferF hbuf r road l w d f
      rcases hbf : bufferFeature bufferF r road l w d f with _ | b
      · rw [hbf] at hb; simp at hb
      · rcases ha : apply_setback bufferF r road l w d fs with _ | bs
        · rw [ha] at ih; simp at ih
        · simp [apply_setback, hbf, ha]

/-- C7 counterexample: with a zero radius and a negative residence setback
the analysis is not rejected — the entry point resolves the setbacks
unchanged, performs the geometric pipeline (the buffered output geometry
records that the distance -5 reached buffering) and reports success. -/
theorem C7_no_eager_rejection_counterexample :
    ((get_unbuildable_areas encodeDistBuffer (fun _ => 0) forgetSetback true
        invalidCfg
        [⟨"way", some [(0, 0), (1, 1)], [("building", "house")]⟩]).success = true)
    ∧ resolve_residence_setback invalidCfg = -5
    ∧ invalidCfg.radius_km = 0
    ∧ ((get_unbuildable_areas encodeDistBuffer (fun _ => 0) forgetSetback true
        invalidCfg
        [⟨"way", some [(0, 0), (1, 1)], [("building", "house")]⟩]).features
      = [⟨[("building", "house")], .point (-5, 0)⟩]) := by
  have h1 : osm_to_geojson [⟨"way", some [(0, 0), (1, 1)], [("building", "house")]⟩]
      = [⟨[("building", "house")], .lineString [(0, 0), (1, 1)]⟩] := rfl
  have h2 : filter_by_radius (fun _ => (0 : ℚ)) 0
      [⟨[("building", "house")], .lineString [(0, 0), (1, 1)]⟩]
      = [⟨[("building", "house")], .lineString [(0, 0), (1, 1)]⟩] := by
    simp [filter_by_radius]
  have hpipe : query_overpass_pipeline encodeDistBuffer (fun _ => 0) forgetSetback
      [⟨"way", some [(0, 0), (1, 1)], [("building", "house")]⟩] 0 (-5) 110 110
      30.48 (some 100)
      = some [⟨[("building", "house")], .point (-5, 0)⟩] := by
    simp only [query_overpass_pipeline, h1, h2]
    rfl
  have hga : get_unbuildable_areas encodeDistBuffer (fun _ => 0) forgetSetback true
      invalidCfg [⟨"way", some [(0, 0), (1, 1)], [("building", "house")]⟩]
      = { success := true,
          features := [⟨[("building", "house")], .point (-5, 0)⟩],
          error := none } := by
    simp only [get_unbuildable_areas]
    rw [show query_overpass_pipeline encodeDistBuffer (fun _ => (0 : ℚ))
        forgetSetback
        [⟨"way", some [(0, 0), (1, 1)], [("building", "house")]⟩]
        invalidCfg.radius_km (resolve_residence_setback invalidCfg)
        (resolve_road_setback invalidCfg) (resolve_lines_setback invalidCfg)
        (resolve_water_setback invalidCfg) invalidCfg.default_setback_m
        = some [⟨[("building", "house")], .point (-5, 0)⟩] from hpipe]
    rfl
  exact ⟨by rw [hga], rfl, rfl, by rw [hga]⟩

/-- C7 (amended): `get_unbuildable_areas` performs no configuration
validation whatsoever — every configuration, including one with negative
setbacks or a zero radius, is resolved unchanged and flows into the
geometric pipeline, and the analysis succeeds whenever buffering and saving
succeed. -/
theorem C7_config_not_validated (bufferF : GeoGeometry → ℚ → Option GeoGeometry)
    (distF : GeoGeometry → ℚ) (simplifyF : List BufferedFeature → List GeoFeature)
    (cfg : AnalysisConfig) (elements : List OsmElement)
    (hbuf : ∀ g q, (bufferF g q).isSome = true) :
    ((get_unbuildable_areas bufferF distF simplifyF true cfg elements).success = true)
    ∧ (∀ q : ℚ, cfg.residence_setback_m = some q →
        resolve_residence_setback cfg = q)
    ∧ (∀ q : ℚ, cfg.road_setback_m = some q → resolve_road_setback cfg = q)
    ∧ (∀ q : ℚ, cfg.lines_setback_m = some q → resolve_lines_setback cfg = q)
    ∧ (∀ q : ℚ, cfg.water_setback_m = some q → resolve_water_setback cfg = q) := by
  refine ⟨?_, ?_, ?_, ?_, ?_⟩
  · have h := apply_setback_isSome bufferF hbuf (resolve_residence_setback cfg)
      (resolve_road_setback cfg) (resolve_lines_setback cfg)
      (resolve_water_setback cfg) cfg.default_setback_m
      (filter_by_radius distF cfg.radius_km (osm_to_geojson elements))
    simp only [get_unbuildable_areas, query_overpass_pipeline]
    rcases ha : apply_setback bufferF (resolve_residence_setback cfg)
        (resolve_road_setback cfg) (resolve_lines_setback cfg)
        (resolve_water_setback cfg) cfg.default_setback_m
        (filter_by_radius distF cfg.radius_km (osm_to_geojson elements))
      with _ | bs
    · rw [ha] at h; simp at h
    · simp [ha]
  · intro q hq; simp [resolve_residence_setback, hq]
  · intro q hq; simp [resolve_road_setback, hq]
  · intro q hq; simp [resolve_lines_setback, hq]
  · intro q hq; simp [resolve_water_setback, hq]

/-- Witness for C7 with a total buffering interpretation and the invalid
configuration. -/
theorem C7_config_not_validated_witness :
    ((get_unbuildable_areas encodeDistBuffer (fun _ => 0) forgetSetback true
        invalidCfg
        [⟨"way", some [(0, 0), (1, 1)], [("building", "house")]⟩]).success = true)
    ∧ resolve_residence_setback invalidCfg = -5 :=
  ⟨(C7_config_not_validated encodeDistBuffer (fun _ => 0) forgetSetback invalidCfg
      [⟨"way", some [(0, 0), (1, 1)], [("building", "house")]⟩]
      (fun _ _ => rfl)).1,
   (C7_config_not_validated encodeDistBuffer (fun _ => 0) forgetSetback invalidCfg
      [⟨"way", some [(0, 0), (1, 1)], [("building", "house")]⟩]
      (fun _ _ => rfl)).2.1 (-5) rfl⟩

/-- C8: a missing layout file and an empty layout both yield an error result
with `validation_passed = false`, a human-readable message and empty
violation and distance lists (no exception); a missing boundaries file
merely skips boundary checking — the result has no boundary violations and
the spacing analysis proceeds exactly as usual. -/
theorem C8_missing_inputs (cosF sqrtF : ℚ → ℚ) (pid : String)
    (bs : Option (List BoundaryZone)) (m : ℚ) (ts : List TurbineFeature)
    (hne : ts ≠ []) :
    ((validate_layout_quality cosF sqrtF pid none bs m).status = "error"
      ∧ (validate_layout_quality cosF sqrtF pid none bs m).validation_passed = false
      ∧ (validate_layout_quality cosF sqrtF pid none bs m).message
          = some ("No turbine layout found for project " ++ pid
              ++ ". Create a layout first.")
      ∧ (validate_layout_quality cosF sqrtF pid none bs m).boundary_violations = []
      ∧ (validate_layout_quality cosF sqrtF pid none bs m).spacing_violations = []
      ∧ (validate_layout_quality cosF sqrtF pid none bs m).turbine_distances = [])
    ∧ ((validate_layout_quality cosF sqrtF pid (some []) bs m).status = "error"
      ∧ (validate_layout_quality cosF sqrtF pid (some []) bs m).validation_passed = false
      ∧ (validate_layout_quality cosF sqrtF pid (some []) bs m).message
          = some "No turbines found in layout"
      ∧ (validate_layout_quality cosF sqrtF pid (some []) bs m).boundary_violations = []
      ∧ (validate_layout_quality cosF sqrtF pid (some []) bs m).spacing_violations = []
      ∧ (validate_layout_quality cosF sqrtF pid (some []) bs m).turbine_distances = [])
    ∧ ((validate_layout_quality cosF sqrtF pid (some ts) none m).status = "success"
      ∧ (validate_layout_quality cosF sqrtF pid (some ts) none m).boundary_violations = []
      ∧ (validate_layout_quality cosF sqrtF pid (some ts) none m).spacing_violations
          = (ordPairs ts).filterMap (spacingCheck cosF sqrtF m)
      ∧ (validate_layout_quality cosF sqrtF pid (some ts) none m).turbine_distances
          = (ordPairs ts).map (distanceEntry cosF sqrtF)) := by
  refine ⟨⟨rfl, rfl, rfl, rfl, rfl, rfl⟩, ⟨rfl, rfl, rfl, rfl, rfl, rfl⟩, ?_⟩
  cases ts with
  | nil => exact absurd rfl hne
  | cons t ts' =>
      refine ⟨rfl, ?_, rfl, rfl⟩
      simp [validate_layout_quality]

/-- Witness for C8 at a concrete one-turbine layout. -/
theorem C8_missing_inputs_witness :
    (validate_layout_quality id id "proj" none none 300).status = "error"
    ∧ (validate_layout_quality id id "proj" (some []) none 300).validation_passed
        = false
    ∧ (validate_layout_quality id id "proj" (some [⟨0, 0, some 1⟩]) none
        300).status = "success" :=
  ⟨(C8_missing_inputs id id "proj" none 300 [⟨0, 0, some 1⟩] (by decide)).1.1,
   (C8_missing_inputs id id "proj" none 300 [⟨0, 0, some 1⟩] (by decide)).2.1.2.1,
   (C8_missing_inputs id id "proj" none 300 [⟨0, 0, some 1⟩] (by decide)).2.2.1⟩

/-- C9 counterexample: a boundary-violation record does not carry the zone
class — its `issue` field is one fixed generic string, so the records
produced inside a `water` zone and inside a `roads` zone are identical even
though the classes differ. -/
theorem C9_generic_issue_counterexample :
    ((validate_layout_quality id id "p" (some [⟨0, 0, some 1⟩])
        (some [⟨"water", fun _ _ => true⟩]) 300).boundary_violations
      = [{ turbine_id := some 1, coordinates := (0, 0),
           issue := unbuildableIssue }])
    ∧ ((validate_layout_quality id id "p" (some [⟨0, 0, some 1⟩])
        (some [⟨"roads", fun _ _ => true⟩]) 300).boundary_violations
      = [{ turbine_id := some 1, coordinates := (0, 0),
           issue := unbuildableIssue }])
    ∧ ("water" : String) ≠ "roads"
    ∧ unbuildableIssue ≠ "water" := by
  refine ⟨rfl, rfl, ?_, ?_⟩ <;> decide

/-- C9 (amended): each boundary violation record identifies the turbine id
and its coordinates, and a turbine is reported exactly when its point
intersects some exclusion-zone geometry; the `issue` field is the fixed
generic message, independent of which zone class the turbine falls
inside. -/
theorem C9_violation_record (cosF sqrtF : ℚ → ℚ) (pid : String)
    (ts : List TurbineFeature) (zs : List BoundaryZone) (m : ℚ) :
    (validate_layout_quality cosF sqrtF pid (some ts) (some zs) m).boundary_violations
      = (ts.filter fun t => zs.any fun z => z.contains t.lon t.lat).map
          fun t => { turbine_id := t.turbine_id, coordinates := (t.lat, t.lon),
                     issue := unbuildableIssue } := by
  cases ts with
  | nil => simp [validate_layout_quality]
  | cons t ts' =>
      cases zs with
      | nil => simp [validate_layout_quality]
      | cons z zs' => simp [validate_layout_quality]

theorem osmElementFeature_eq_none {el : OsmElement}
    (h : (el.etype == "way" && el.geometry.isSome) = false) :
    osmElementFeature el = none := by
  rcases hw : el.etype == "way" with _ | _
  · simp [osmElementFeature, hw]
  · rcases hg : el.geometry with _ | pts
    · simp [osmElementFeature, hw, hg]
    · rw [hw, hg] at h
      simp at h

theorem osmElementFeature_not_point {el : OsmElement} {f : GeoFeature}
    (h : osmElementFeature el = some f) : f.geometry.isPoint = false := by
  unfold osmElementFeature at h
  split at h
  · split at h
    · simp only [] at h
      split at h
      · split at h
        · cases h; rfl
        · cases h; rfl
      · cases h
    · cases h
  · cases h

theorem osm_to_geojson_filter_ways (els : List OsmElement) :
    osm_to_geojson els
      = osm_to_geojson
          (els.filter fun el => el.etype == "way" && el.geometry.isSome) := by
  induction els with
  | nil => rfl
  | cons el els ih =>
      have ih' : List.filterMap osmElementFeature els
          = List.filterMap osmElementFeature
              (els.filter fun el => el.etype == "way" && el.geometry.isSome) := ih
      rcases h : (el.etype == "way" && el.geometry.isSome) with _ | _
      · have hn := osmElementFeature_eq_none h
        simp [osm_to_geojson, List.filterMap_cons, List.filter_cons, h, hn, ih']
      · simp [osm_to_geojson, List.filterMap_cons, List.filter_cons, h, ih']

theorem osm_to_geojson_no_points (els : List OsmElement) :
    ((osm_to_geojson els).all fun f => !f.geometry.isPoint) = true := by
  induction els with
  | nil => rfl
  | cons el els ih =>
      have ih' : ((List.filterMap osmElementFeature els).all
          fun f => !f.geometry.isPoint) = true := ih
      simp only [osm_to_geojson, List.filterMap_cons]
      rcases hf : osmElementFeature el with _ | f
      · exact ih'
      · show ((f :: List.filterMap osmElementFeature els).all
            fun g => !g.geometry.isPoint) = true
        simp [osmElementFeature_not_point hf, ih']

/-- C10: the feature normaliser emits features only for elements of type
`way` that carry a geometry — filtering every other element (in particular
every `node`) away first changes nothing — and no emitted feature ever has
a `Point` geometry. -/
theorem C10_ways_only_no_points (els : List OsmElement) :
    (osm_to_geojson els
      = osm_to_geojson
          (els.filter fun el => el.etype == "way" && el.geometry.isSome))
    ∧ ((osm_to_geojson els).all fun f => !f.geometry.isPoint) = true :=
  ⟨osm_to_geojson_filter_ways els, osm_to_geojson_no_points els⟩

end RenewablePlanning
